import Mathlib

/-!
Shallow embedding of the route discovery, auth-gating and dispatch pipeline of
src/packages/rest/src/handlers.ts, together with the spec-level collaborator
contracts it depends on (RestError, the controller base class, and the OpenAPI
path converter, whose source files are not part of the repository snapshot).

Strings are modelled as lists of characters so every string operation the
source performs (split, replace-first-occurrence, toLowerCase, startsWith,
includes, truthiness tests) is a structurally recursive, kernel-evaluable
Lean function mirroring the JavaScript semantics.
-/

/-- Model of JavaScript strings: a list of characters, so that all of the
string surgery done by handlers.ts is structural recursion. -/
abbrev Str := List Char

/-- Embed a Lean string literal into the model's string type. -/
def s (x : String) : Str := x.data

/-- Minimal JSON value model for request/response bodies and JWKS documents. -/
inductive Json where
  | null
  | bool (b : Bool)
  | num (n : Int)
  | str (text : Str)
  | arr (elems : List Json)
  | obj (fields : List (Str × Json))

/-- Modelled from the spec: the RestError application-error class
(src/packages/rest/src/RestError.ts is not under src/). It is the Error
Envelope of spec section 3 with the status taxonomy of section 7:
Unauthorized is 401 and Forbidden is 403. -/
structure RestError where
  statusCode : Nat
  errorData : Option Json
  errorMessage : Str

/-- Modelled from the spec: RestError.unauthorized(message) produces a
401 envelope carrying the given message. -/
def RestError.unauthorizedMsg (m : Str) : RestError :=
  { statusCode := 401, errorData := none, errorMessage := m }

/-- Modelled from the spec: RestError.unauthorized() with no argument, as
thrown by the catch block of createAuthHandler; a 401 envelope with the
class's default message. -/
def RestError.unauthorizedDefault : RestError :=
  { statusCode := 401, errorData := none, errorMessage := s "Unauthorized." }

/-- Modelled from the spec: RestError.forbidden(), a 403 envelope. -/
def RestError.forbiddenDefault : RestError :=
  { statusCode := 403, errorData := none, errorMessage := s "Forbidden." }

/-- A thrown JavaScript error is either a RestError or any other error value
(TypeError, SyntaxError, errors thrown by the jose library, ...). -/
inductive JsError where
  | rest (e : RestError)
  | other (message : Str)

/-- The two kinds of key set the handler can build: a remote JWKS fetched
from a URL (createRemoteJWKSet) or a locally parsed document
(createLocalJWKSet). -/
inductive Jwks where
  | remote (url : Str)
  | localDoc (doc : Json)

/-- The claims of a verified token that createAuthHandler reads: sub, name,
aud (each cast to string by the source) and the optional space-delimited
scope claim. -/
structure JwtPayload where
  sub : Str
  name : Str
  aud : Str
  scope : Option Str

/-- The auth context the handler attaches to the request (req.auth). -/
structure AuthContext where
  sub : Str
  name : Str
  aud : Str
  scopes : Option (List Str)

/-- An inbound HTTP request as the handlers see it: lowercased header names
mapped to values, parsed JSON body, path parameters and captured raw body. -/
structure Request where
  headers : List (Str × Str)
  body : Json
  pathParams : List (Str × Str)
  rawBody : Str

/-- Header lookup (node lowercases inbound header names; a present header
with an empty value is `some []`, an absent one is `none`). -/
def Request.header (req : Request) (nm : Str) : Option Str :=
  (req.headers.find? (fun p => p.1 == nm)).map Prod.snd

/-- An HTTP response: status code plus JSON body, as produced by
res.status(...).json(...). -/
structure HttpResponse where
  status : Nat
  body : Json

/-- The controller invocation record built by createBizHandler (the argument
of the controller constructor). -/
structure Invocation where
  data : Json
  auth : Option AuthContext
  pathParams : List (Str × Str)
  rawBody : Str
  headers : List (Str × Str)

/-- Modelled from the spec: the Controller collaborator contract of spec
section 6 (src/packages/rest/src/BaseController.ts is not under src/): a
static isPublic flag, an optional static scope, a static successStatusCode,
and an execute() that produces the response payload or fails. -/
structure Controller where
  isPublic : Bool
  scope : Option Str
  successStatusCode : Nat
  execute : Invocation → Except JsError Json

/-- The options object given to createAuthHandler. -/
structure AuthOptions where
  jwts : Str
  scope : Option Str
deriving DecidableEq

/-- JavaScript String.prototype.split with a single-character separator:
splits at every occurrence, keeping empty pieces, and yields one (possibly
empty) piece even for the empty string. -/
def jsSplit (sep : Char) : Str → List Str
  | [] => [[]]
  | c :: rest =>
    match jsSplit sep rest with
    | [] => [[]]
    | h :: t => if c = sep then [] :: h :: t else (c :: h) :: t

/-- JavaScript String.prototype.replace with a string pattern and empty
replacement: removes the first occurrence of the pattern, if any. -/
def removeFirst (pat : Str) : Str → Str
  | [] => []
  | c :: rest =>
    if pat.isPrefixOf (c :: rest) then (c :: rest).drop pat.length
    else c :: removeFirst pat rest

/-- JavaScript truthiness of an optional string: undefined and the empty
string are falsy. -/
def jsTruthy (o : Option Str) : Prop := o.getD [] ≠ []

instance (o : Option Str) : Decidable (jsTruthy o) := by
  unfold jsTruthy; infer_instance

/-- Optional-chaining membership, scopes?.includes(x): undefined yields a
falsy result, otherwise array membership. -/
def optIncludes (scopes : Option (List Str)) (x : Str) : Prop :=
  match scopes with
  | none => False
  | some l => x ∈ l

instance (scopes : Option (List Str)) (x : Str) : Decidable (optIncludes scopes x) :=
  match scopes with
  | none => isFalse fun h => h
  | some l => inferInstanceAs (Decidable (x ∈ l))

/-- The verification oracle standing for jose's jwtVerify: given the token
(undefined when the header had no second word) and the key set, it either
yields the payload or fails with a (non-RestError) library error message. -/
abbrev Verify := Option Str → Jwks → Except Str JwtPayload

/-- Lines 21 to 28 of handlers.ts: key-set selection and jwtVerify, inside
the try block. When options.jwts starts with http a remote key set for that
URL is used; otherwise the source evaluates JSON.parse(jwts) where jwts is
the just-declared, still-undefined local variable, so a SyntaxError is
thrown before any key set is built and the configured document is never
parsed. Library failures are non-RestError errors. -/
def tryVerify (options : AuthOptions) (verify : Verify) (token : Option Str) :
    Except JsError JwtPayload :=
  if (s "http").isPrefixOf options.jwts then
    match verify token (Jwks.remote options.jwts) with
    | .ok payload => .ok payload
    | .error m => .error (.other m)
  else
    .error (.other (s "SyntaxError: JSON.parse applied to the undefined local jwts"))

/-- Lines 21 to 48 of handlers.ts: the body of the try block. Verify the
token, split the scope claim, enforce the required scope (throwing the
RestError forbidden), build req.auth, and apply the x-personate-sub
impersonation override for admin-scoped tokens. -/
def tryBlock (options : AuthOptions) (verify : Verify) (token : Option Str)
    (req : Request) : Except JsError AuthContext :=
  match tryVerify options verify token with
  | .error e => .error e
  | .ok payload =>
    let scopes : Option (List Str) := payload.scope.map (jsSplit ' ')
    if jsTruthy options.scope ∧ ¬ optIncludes scopes (options.scope.getD []) then
      .error (.rest RestError.forbiddenDefault)
    else
      let auth0 : AuthContext :=
        { sub := payload.sub, name := payload.name, aud := payload.aud, scopes := scopes }
      if optIncludes scopes (s "*:admin") then
        .ok { auth0 with
              sub := if jsTruthy (req.header (s "x-personate-sub")) then
                       (req.header (s "x-personate-sub")).getD []
                     else auth0.sub }
      else
        .ok auth0

/-- Lines 12 to 55 of handlers.ts: the auth handler. Rejects a falsy
Authorization header, a non-Bearer scheme, then runs the try block; the
catch clause rethrows RestErrors unchanged and converts every other error
into RestError.unauthorized(). -/
def createAuthHandler (options : AuthOptions) (verify : Verify) (req : Request) :
    Except RestError AuthContext :=
  let authorization := (req.header (s "authorization")).getD []
  if authorization = [] then
    .error (RestError.unauthorizedMsg (s "Authorization header is required."))
  else
    let parts := jsSplit ' ' authorization
    let tokenType := parts.headD []
    let token := parts.get? 1
    if tokenType ≠ s "Bearer" then
      .error (RestError.unauthorizedMsg (s "Authorization token type is unsupported."))
    else
      match tryBlock options verify token req with
      | .ok ctx => .ok ctx
      | .error (.rest e) => .error e
      | .error (.other _) => .error RestError.unauthorizedDefault

/-- Lines 57 to 68 of handlers.ts: the dispatch handler. Build the
controller invocation from the request and the auth context, execute the
controller, and on success respond with the class's successStatusCode and
the payload as JSON body; controller failures propagate. -/
def createBizHandler (c : Controller) (auth : Option AuthContext) (req : Request) :
    Except JsError HttpResponse :=
  match c.execute { data := req.body, auth := auth, pathParams := req.pathParams,
                    rawBody := req.rawBody, headers := req.headers } with
  | .ok result => .ok { status := c.successStatusCode, body := result }
  | .error e => .error e

/-- Lines 124 to 141 of handlers.ts: the error translator. A RestError is
rendered with its own status code and an error object holding its data and
message (res.json serialization omits an undefined data field); any other
error yields a 500 with the fixed internal-error body. -/
def catchError (err : JsError) : HttpResponse :=
  match err with
  | .rest e =>
    { status := e.statusCode,
      body := Json.obj [(s "error", Json.obj
        ((match e.errorData with
          | some d => [(s "data", d)]
          | none => []) ++ [(s "message", Json.str e.errorMessage)]))] }
  | .other _ =>
    { status := 500,
      body := Json.obj [(s "error", Json.obj [(s "message", Json.str (s "Internal error."))])] }

/-- The per-request middleware chain of a private route as the assembler
wires it (auth handler, then dispatch handler), with thrown errors routed
to the error translator. Modelled from the spec: the host framework's
forwarding of thrown errors to the final error middleware is the external
collaborator contract of spec sections 4.5 and 7. -/
def privateRouteResponse (options : AuthOptions) (verify : Verify) (c : Controller)
    (req : Request) : HttpResponse :=
  match createAuthHandler options verify req with
  | .error e => catchError (.rest e)
  | .ok ctx =>
    match createBizHandler c (some ctx) req with
    | .error e => catchError e
    | .ok r => r

/-- The per-request middleware chain of a public route (no auth handler, so
req.auth stays undefined), with thrown errors routed to the error
translator. -/
def publicRouteResponse (c : Controller) (req : Request) : HttpResponse :=
  match createBizHandler c none req with
  | .error e => catchError e
  | .ok r => r

/-- Line 72 of handlers.ts: the HTTP methods a controller file name may
encode. -/
def allowedMethods : List Str := [s "get", s "post", s "patch"]

/-- The last path segment of a controller file's relative path, as
parts.pop() yields it after the split on the path separator. -/
def lastSegment (file : Str) : Str := (jsSplit '/' file).getLastD []

/-- Line 96 of handlers.ts: the HTTP method encoded by a file name, via
replace of the first occurrence of .js and toLowerCase. -/
def extractMethod (fileName : Str) : Str :=
  (removeFirst (s ".js") fileName).map Char.toLower

/-- Modelled from the spec: openApiPathToExpressPath
(src/packages/rest/src/util.ts is not under src/) converts an OpenAPI-style
brace parameter segment to the router's colon parameter syntax and leaves
every other segment unchanged. -/
def openApiPathToExpressPath (p : Str) : Str :=
  match p with
  | '{' :: rest => if rest.getLastD ' ' = '}' then ':' :: rest.dropLast else '{' :: rest
  | other => other

/-- Line 100 of handlers.ts: the URL path of a controller file, from the
segments remaining after parts.pop() removed the file name. -/
def routePath (file : Str) : Str :=
  '/' :: List.intercalate (s "/") (((jsSplit '/' file).dropLast).map openApiPathToExpressPath)

/-- The configuration errors thrown during router assembly, with the data
each of the source's Error messages carries. -/
inductive ConfigError where
  | invalidMethod (file : Str)
  | missingJwts (path method : Str)
deriving DecidableEq

/-- The message strings the source builds for each configuration error. -/
def ConfigError.message : ConfigError → Str
  | .invalidMethod file =>
    s "The method is invalid for the file " ++ file ++ s "."
  | .missingJwts path method =>
    s "A JWTS configuration is required since the controller " ++ path ++ s "/"
      ++ method ++ s " is private."

/-- A registered route: method, express path, and the auth handler options
when the controller is private (none for a public controller). -/
structure Route where
  method : Str
  path : Str
  auth : Option AuthOptions
deriving DecidableEq

/-- Lines 94 to 110 of handlers.ts, for one controller file: derive the
method from the popped last segment (rejecting anything outside
allowedMethods), build the URL path from the remaining segments, and for a
private controller require a truthy jwts configuration and bind the auth
handler with the controller scope defaulted by the truthiness fallback
c.scope or defaultScope. -/
def buildRoute (jwts defaultScope : Option Str) (file : Str) (c : Controller) :
    Except ConfigError Route :=
  let method := extractMethod (lastSegment file)
  if method ∉ allowedMethods then
    .error (.invalidMethod file)
  else
    let urlPath := routePath file
    if c.isPublic then
      .ok { method := method, path := urlPath, auth := none }
    else
      if ¬ jsTruthy jwts then
        .error (.missingJwts urlPath method)
      else
        .ok { method := method, path := urlPath,
              auth := some { jwts := jwts.getD [],
                             scope := if jsTruthy c.scope then c.scope else defaultScope } }

/-- Lines 94 to 111 of handlers.ts: the assembly loop over the discovered
controller files in discovery order; the first configuration error aborts
the whole construction before any route is served. -/
def createControllerRouter (jwts defaultScope : Option Str) :
    List (Str × Controller) → Except ConfigError (List Route)
  | [] => .ok []
  | (file, c) :: rest =>
    match buildRoute jwts defaultScope file c with
    | .error e => .error e
    | .ok r =>
      match createControllerRouter jwts defaultScope rest with
      | .error e => .error e
      | .ok rs => .ok (r :: rs)

/-- A verification oracle that accepts any token with a fixed payload,
standing for a JWKS under which the presented token is valid. -/
def constVerify (p : JwtPayload) : Verify := fun _ _ => .ok p

/-- A verified payload carrying the admin sentinel scope. -/
def adminPayload : JwtPayload :=
  { sub := s "alice", name := s "Alice", aud := s "club", scope := some (s "*:admin read:x") }

/-- A verified payload without the admin sentinel scope. -/
def plainPayload : JwtPayload :=
  { sub := s "alice", name := s "Alice", aud := s "club", scope := some (s "read:x") }

/-- Auth options with a remote JWKS URL and no required scope. -/
def remoteOptions : AuthOptions := { jwts := s "https://auth.example/jwks", scope := none }

/-- Auth options whose jwts value is an inline document rather than a URL. -/
def inlineJwksOptions : AuthOptions := { jwts := s "inline-jwks-document", scope := none }

/-- Auth options whose required scope is set to the empty string. -/
def emptyScopeOptions : AuthOptions :=
  { jwts := s "https://auth.example/jwks", scope := some [] }

/-- Auth options with a remote JWKS URL and a non-empty required scope. -/
def scopedOptions : AuthOptions :=
  { jwts := s "https://auth.example/jwks", scope := some (s "write:x") }

/-- A public demo controller that succeeds with a null payload and a 200. -/
def demoController : Controller :=
  { isPublic := true, scope := none, successStatusCode := 200,
    execute := fun _ => .ok Json.null }

/-- A private demo controller. -/
def privateController : Controller :=
  { isPublic := false, scope := none, successStatusCode := 200,
    execute := fun _ => .ok Json.null }

/-- A typed application error with a 418 status and structured data. -/
def teapotError : RestError :=
  { statusCode := 418, errorData := some (Json.str (s "teapot")),
    errorMessage := s "I am a teapot." }

/-- A controller whose execution fails with a typed application error. -/
def failingRestController : Controller :=
  { isPublic := true, scope := none, successStatusCode := 200,
    execute := fun _ => .error (.rest teapotError) }

/-- A controller whose execution fails with an untyped error. -/
def throwingController : Controller :=
  { isPublic := true, scope := none, successStatusCode := 200,
    execute := fun _ => .error (.other (s "TypeError: boom")) }

/-- Two distinct controller files that resolve to the same method and path
(the method derivation lowercases the file name). -/
def duplicatePairFiles : List (Str × Controller) :=
  [(s "users/GET.js", demoController), (s "users/get.js", demoController)]

/-- A request carrying only a Bearer authorization header. -/
def bearerReq : Request :=
  { headers := [(s "authorization", s "Bearer token")],
    body := Json.null, pathParams := [], rawBody := [] }

/-- A request with no Authorization header at all. -/
def noAuthReq : Request :=
  { headers := [], body := Json.null, pathParams := [], rawBody := [] }

/-- A request carrying a Bearer token and a non-empty x-personate-sub. -/
def personateReq : Request :=
  { headers := [(s "authorization", s "Bearer token"), (s "x-personate-sub", s "bob")],
    body := Json.null, pathParams := [], rawBody := [] }

/-- A request carrying a Bearer token and a present but empty
x-personate-sub header. -/
def emptyPersonateReq : Request :=
  { headers := [(s "authorization", s "Bearer token"), (s "x-personate-sub", s "")],
    body := Json.null, pathParams := [], rawBody := [] }

lemma sjs_eq : s ".js" = ['.', 'j', 's'] := rfl

lemma dot_not_mem_of_lower_mem (l : Str) (h : l.map Char.toLower ∈ allowedMethods) :
    '.' ∉ l := by
  intro hdot
  have hmem : Char.toLower '.' ∈ l.map Char.toLower := List.mem_map_of_mem _ hdot
  have hdoteq : Char.toLower '.' = '.' := by decide
  rw [hdoteq] at hmem
  simp only [allowedMethods, List.mem_cons, List.not_mem_nil, or_false] at h
  rcases h with h | h | h <;> rw [h] at hmem <;> exact absurd hmem (by decide)

lemma removeFirst_append_no_dot (stem : Str) (h : '.' ∉ stem) :
    removeFirst (s ".js") (stem ++ s ".js") = stem := by
  induction stem with
  | nil => rfl
  | cons c t ih =>
    have hc : c ≠ '.' := fun he => h (by rw [he]; exact List.mem_cons_self _ _)
    have ht : '.' ∉ t := fun hm => h (List.mem_cons_of_mem _ hm)
    show removeFirst (s ".js") (c :: (t ++ s ".js")) = c :: t
    rw [removeFirst]
    have hpre : ¬ ((s ".js").isPrefixOf (c :: (t ++ s ".js")) = true) := by
      rw [sjs_eq]
      simp only [List.isPrefixOf, Bool.and_eq_true, beq_iff_eq]
      intro hand
      exact hc hand.1.symm
    rw [if_neg hpre, ih ht]

lemma isPrefixOf_decomp (p l : Str) (h : p.isPrefixOf l = true) :
    l = p ++ l.drop p.length := by
  rw [List.isPrefixOf_iff_prefix] at h
  obtain ⟨t, ht⟩ := h
  rw [← ht, List.drop_left]

lemma removeFirst_decomp (pat : Str) :
    ∀ l : Str, removeFirst pat l ≠ l →
      ∃ x y, l = x ++ pat ++ y ∧ removeFirst pat l = x ++ y := by
  intro l
  induction l with
  | nil => intro h; exact absurd rfl h
  | cons c t ih =>
    intro h
    by_cases hp : pat.isPrefixOf (c :: t) = true
    · refine ⟨[], (c :: t).drop pat.length, ?_, ?_⟩
      · simpa using isPrefixOf_decomp pat (c :: t) hp
      · rw [removeFirst, if_pos hp]; simp
    · have h2 : removeFirst pat t ≠ t := by
        intro he; apply h; rw [removeFirst, if_neg hp, he]
      obtain ⟨x, y, hl, hr⟩ := ih h2
      exact ⟨c :: x, y, by simp [hl], by rw [removeFirst, if_neg hp, hr, List.cons_append]⟩

lemma append_js_cancel (stem x y : Str)
    (h : stem ++ s ".js" = x ++ s ".js" ++ y) (hy : '.' ∉ y) : y = [] := by
  have hrev := congrArg List.reverse h
  rw [sjs_eq] at hrev
  simp only [List.reverse_append, List.append_assoc] at hrev
  cases hyr : y.reverse with
  | nil =>
    have := congrArg List.reverse hyr
    simpa using this
  | cons a t =>
    rw [hyr] at hrev
    have hrev2 : ('s' :: 'j' :: '.' :: stem.reverse : Str) =
        a :: (t ++ ('s' :: 'j' :: '.' :: x.reverse)) := by
      simpa using hrev
    injection hrev2 with h1 hrest
    cases t with
    | nil =>
      simp only [List.nil_append] at hrest
      injection hrest with h2 _
      exact absurd h2 (by decide)
    | cons b t2 =>
      simp only [List.cons_append] at hrest
      injection hrest with h2 hrest2
      cases t2 with
      | nil =>
        simp only [List.nil_append] at hrest2
        injection hrest2 with h3 _
        exact absurd h3 (by decide)
      | cons c2 t3 =>
        simp only [List.cons_append] at hrest2
        injection hrest2 with h3 _
        have hc2y : c2 ∈ y.reverse := by rw [hyr]; simp
        rw [← h3] at hc2y
        exact absurd (List.mem_reverse.mp hc2y) hy

lemma extractMethod_append (stem : Str) (h : stem.map Char.toLower ∈ allowedMethods) :
    extractMethod (stem ++ s ".js") = stem.map Char.toLower := by
  unfold extractMethod
  rw [removeFirst_append_no_dot stem (dot_not_mem_of_lower_mem stem h)]

lemma extractMethod_mem_iff (stem : Str) :
    extractMethod (stem ++ s ".js") ∈ allowedMethods ↔
      stem.map Char.toLower ∈ allowedMethods := by
  constructor
  · intro h
    have hlow : (removeFirst (s ".js") (stem ++ s ".js")).map Char.toLower
        ∈ allowedMethods := h
    have hdotr : '.' ∉ removeFirst (s ".js") (stem ++ s ".js") :=
      dot_not_mem_of_lower_mem _ hlow
    have hdotl : '.' ∈ stem ++ s ".js" :=
      List.mem_append_right _ (by rw [sjs_eq]; exact List.mem_cons_self _ _)
    have hne : removeFirst (s ".js") (stem ++ s ".js") ≠ stem ++ s ".js" := by
      intro he; rw [he] at hdotr; exact hdotr hdotl
    obtain ⟨x, y, hld, hrd⟩ := removeFirst_decomp (s ".js") (stem ++ s ".js") hne
    have hy : '.' ∉ y := by
      intro hm; apply hdotr; rw [hrd]; exact List.mem_append_right x hm
    have hy0 : y = [] := append_js_cancel stem x y hld hy
    rw [hy0, List.append_nil] at hld hrd
    have hx : x = stem := List.append_cancel_right (hld.symm)
    rw [hrd, hx] at hlow
    exact hlow
  · intro h
    rw [extractMethod_append stem h]
    exact h

lemma buildRoute_ok_of (jwts defaultScope : Option Str) (f : Str) (c : Controller)
    (u : Str) (hseg : lastSegment f = u ++ s ".js")
    (hgood : u.map Char.toLower ∈ allowedMethods)
    (hauth : c.isPublic = true ∨ jsTruthy jwts) :
    ∃ r, buildRoute jwts defaultScope f c = .ok r := by
  unfold buildRoute
  rw [hseg, extractMethod_append u hgood]
  rw [if_neg (not_not_intro hgood)]
  rcases hauth with hp | ht
  · rw [hp]
    simp only [if_true]
    exact ⟨_, rfl⟩
  · by_cases hp : c.isPublic
    · rw [if_pos hp]; exact ⟨_, rfl⟩
    · rw [if_neg hp, if_neg (not_not_intro ht)]; exact ⟨_, rfl⟩

lemma buildRoute_invalid (jwts defaultScope : Option Str) (f : Str) (c : Controller)
    (u : Str) (hseg : lastSegment f = u ++ s ".js")
    (hbad : u.map Char.toLower ∉ allowedMethods) :
    buildRoute jwts defaultScope f c = .error (.invalidMethod f) := by
  unfold buildRoute
  rw [hseg]
  rw [if_pos (fun hmem => hbad ((extractMethod_mem_iff u).mp hmem))]

lemma buildRoute_missing (defaultScope : Option Str) (f : Str) (c : Controller)
    (u : Str) (hseg : lastSegment f = u ++ s ".js")
    (hgood : u.map Char.toLower ∈ allowedMethods) (hpriv : c.isPublic = false) :
    buildRoute none defaultScope f c =
      .error (.missingJwts (routePath f) (u.map Char.toLower)) := by
  unfold buildRoute
  rw [hseg, extractMethod_append u hgood]
  rw [if_neg (not_not_intro hgood), hpriv]
  simp only [Bool.false_eq_true, if_false]
  rw [if_pos]
  intro htr
  exact htr rfl

lemma router_head_error (jwts defaultScope : Option Str) (f : Str) (c : Controller)
    (rest : List (Str × Controller)) (e : ConfigError)
    (h : buildRoute jwts defaultScope f c = .error e) :
    createControllerRouter jwts defaultScope ((f, c) :: rest) = .error e := by
  unfold createControllerRouter
  rw [h]

lemma router_cons_ok (jwts defaultScope : Option Str) (f : Str) (c : Controller)
    (rest : List (Str × Controller)) (r : Route)
    (h : buildRoute jwts defaultScope f c = .ok r) :
    createControllerRouter jwts defaultScope ((f, c) :: rest) =
      match createControllerRouter jwts defaultScope rest with
      | .error e => .error e
      | .ok rs => .ok (r :: rs) := by
  conv_lhs => rw [createControllerRouter, h]

lemma authHandler_run (options : AuthOptions) (verify : Verify) (req : Request) (a : Str)
    (ha : req.header (s "authorization") = some a) (hne : a ≠ [])
    (hb : (jsSplit ' ' a).headD [] = s "Bearer") :
    createAuthHandler options verify req =
      match tryBlock options verify ((jsSplit ' ' a).get? 1) req with
      | .ok ctx => .ok ctx
      | .error (.rest e) => .error e
      | .error (.other _) => .error RestError.unauthorizedDefault := by
  simp only [createAuthHandler, ha, Option.getD_some]
  rw [if_neg hne, hb]
  rw [if_neg (fun hx => hx rfl)]

lemma tryBlock_run (options : AuthOptions) (verify : Verify) (token : Option Str)
    (req : Request) (payload : JwtPayload)
    (hv : tryVerify options verify token = .ok payload) :
    tryBlock options verify token req =
      (if jsTruthy options.scope ∧
          ¬ optIncludes (payload.scope.map (jsSplit ' ')) (options.scope.getD []) then
        .error (.rest RestError.forbiddenDefault)
      else if optIncludes (payload.scope.map (jsSplit ' ')) (s "*:admin") then
        .ok { sub := if jsTruthy (req.header (s "x-personate-sub")) then
                       (req.header (s "x-personate-sub")).getD []
                     else payload.sub,
              name := payload.name, aud := payload.aud,
              scopes := payload.scope.map (jsSplit ' ') }
      else
        .ok { sub := payload.sub, name := payload.name, aud := payload.aud,
              scopes := payload.scope.map (jsSplit ' ') }) := by
  simp only [tryBlock, hv]

/-- C1: for a request to a private route whose Authorization header is
absent, whose scheme is not Bearer, or whose token fails signature or
claims verification, the auth handler fails with an Unauthorized RestError
and the translated response status is 401. -/
theorem missing_or_invalid_auth_yields_401 (options : AuthOptions) (verify : Verify)
    (c : Controller) (req : Request)
    (h : req.header (s "authorization") = none
       ∨ (∃ a, req.header (s "authorization") = some a ∧
            (jsSplit ' ' a).headD [] ≠ s "Bearer")
       ∨ (∃ a m, req.header (s "authorization") = some a ∧
            tryVerify options verify ((jsSplit ' ' a).get? 1) = .error (.other m))) :
    (∃ e, createAuthHandler options verify req = .error e ∧ e.statusCode = 401) ∧
      (privateRouteResponse options verify c req).status = 401 := by
  have hmain : ∃ e, createAuthHandler options verify req = .error e ∧ e.statusCode = 401 := by
    by_cases h0 : (req.header (s "authorization")).getD [] = []
    · refine ⟨RestError.unauthorizedMsg (s "Authorization header is required."), ?_, rfl⟩
      simp only [createAuthHandler]
      rw [if_pos h0]
    · by_cases h1 : (jsSplit ' ' ((req.header (s "authorization")).getD [])).headD []
          = s "Bearer"
      · obtain ⟨a, ha⟩ : ∃ a, req.header (s "authorization") = some a := by
          cases hh : req.header (s "authorization") with
          | none => exact absurd (by rw [hh]; rfl) h0
          | some a => exact ⟨a, rfl⟩
        have hne : a ≠ [] := by
          intro he; apply h0; rw [ha, Option.getD_some, he]
        have hb : (jsSplit ' ' a).headD [] = s "Bearer" := by
          rw [ha, Option.getD_some] at h1; exact h1
        rcases h with hnone | ⟨a2, ha2, hb2⟩ | ⟨a2, m, ha2, hv⟩
        · rw [hnone] at ha; exact Option.noConfusion ha
        · rw [ha] at ha2
          rw [← Option.some.inj ha2] at hb2
          exact absurd hb hb2
        · rw [ha] at ha2
          rw [← Option.some.inj ha2] at hv
          refine ⟨RestError.unauthorizedDefault, ?_, rfl⟩
          rw [authHandler_run options verify req a ha hne hb]
          simp only [tryBlock, hv]
      · refine ⟨RestError.unauthorizedMsg (s "Authorization token type is unsupported."),
          ?_, rfl⟩
        simp only [createAuthHandler]
        rw [if_neg h0, if_pos h1]
  obtain ⟨e, he, hs⟩ := hmain
  refine ⟨⟨e, he, hs⟩, ?_⟩
  unfold privateRouteResponse
  rw [he]
  simpa only [catchError] using hs

/-- C1 witness: a request with no Authorization header at all is answered
with status 401. -/
theorem missing_or_invalid_auth_yields_401_witness :
    (privateRouteResponse remoteOptions (constVerify adminPayload) demoController
      noAuthReq).status = 401 :=
  (missing_or_invalid_auth_yields_401 remoteOptions (constVerify adminPayload)
    demoController noAuthReq (Or.inl rfl)).2

/-- C3 (code bug): when the configured jwts value does not start with http,
the local branch evaluates JSON.parse on the just-declared and still
undefined local variable jwts instead of options.jwts, so the configured
inline JWKS document is never parsed and every request on such a
configuration is rejected Unauthorized, whatever the verification oracle
would have said. -/
theorem local_jwks_branch_always_unauthorized (verify : Verify) :
    createAuthHandler inlineJwksOptions verify bearerReq =
      .error RestError.unauthorizedDefault := rfl

/-- C5: a controller whose execute succeeds with payload P under declared
success status S makes the dispatch handler produce the response with
status S and JSON body exactly P. -/
theorem dispatch_success_roundtrip (c : Controller) (auth : Option AuthContext)
    (req : Request) (P : Json)
    (h : c.execute { data := req.body, auth := auth, pathParams := req.pathParams,
                     rawBody := req.rawBody, headers := req.headers } = .ok P) :
    createBizHandler c auth req = .ok { status := c.successStatusCode, body := P } := by
  unfold createBizHandler
  rw [h]

/-- C5 witness: the demo controller yields its declared 200 and its null
payload. -/
theorem dispatch_success_roundtrip_witness :
    createBizHandler demoController none bearerReq =
      .ok { status := 200, body := Json.null } :=
  dispatch_success_roundtrip demoController none bearerReq Json.null rfl

/-- C2 counterexample: with an admin-scoped verified token and a present
but empty x-personate-sub header, the Auth Context subject stays the
token's own sub rather than the header's (empty) value, because the source
takes the JS truthiness fallback of the or operator. -/
theorem personate_empty_header_counterexample :
    emptyPersonateReq.header (s "x-personate-sub") = some [] ∧
      (createAuthHandler remoteOptions (constVerify adminPayload)
          emptyPersonateReq).map AuthContext.sub = .ok (s "alice") ∧
      s "alice" ≠ ([] : Str) :=
  ⟨rfl, rfl, by decide⟩

/-- C2 (amended): for a verified token, when its scopes include the
sentinel admin scope the subject is overridden by a present and non-empty
x-personate-sub header; when that header is absent or empty the subject is
the token's own sub; without the sentinel scope the subject is never
overridden. -/
theorem personate_subject_override (options : AuthOptions) (verify : Verify)
    (req : Request) (a : Str) (payload : JwtPayload) (ctx : AuthContext)
    (ha : req.header (s "authorization") = some a) (hne : a ≠ [])
    (hb : (jsSplit ' ' a).headD [] = s "Bearer")
    (hv : tryVerify options verify ((jsSplit ' ' a).get? 1) = .ok payload)
    (hok : createAuthHandler options verify req = .ok ctx) :
    (optIncludes (payload.scope.map (jsSplit ' ')) (s "*:admin") →
       (∀ v, req.header (s "x-personate-sub") = some v → v ≠ [] → ctx.sub = v) ∧
       ((req.header (s "x-personate-sub")).getD [] = [] → ctx.sub = payload.sub)) ∧
    (¬ optIncludes (payload.scope.map (jsSplit ' ')) (s "*:admin") →
       ctx.sub = payload.sub) := by
  rw [authHandler_run options verify req a ha hne hb,
      tryBlock_run options verify ((jsSplit ' ' a).get? 1) req payload hv] at hok
  by_cases hsc : jsTruthy options.scope ∧
      ¬ optIncludes (payload.scope.map (jsSplit ' ')) (options.scope.getD [])
  · rw [if_pos hsc] at hok
    exact Except.noConfusion hok
  · rw [if_neg hsc] at hok
    by_cases hadm : optIncludes (payload.scope.map (jsSplit ' ')) (s "*:admin")
    · rw [if_pos hadm] at hok
      have hctx : ctx =
          { sub := if jsTruthy (req.header (s "x-personate-sub")) then
                     (req.header (s "x-personate-sub")).getD []
                   else payload.sub,
            name := payload.name, aud := payload.aud,
            scopes := payload.scope.map (jsSplit ' ') } :=
        (Except.ok.inj hok).symm
      constructor
      · intro _
        constructor
        · intro v hv2 hvne
          rw [hctx]
          show (if jsTruthy (req.header (s "x-personate-sub")) then
                  (req.header (s "x-personate-sub")).getD []
                else payload.sub) = v
          rw [hv2, if_pos (show jsTruthy (some v) from hvne), Option.getD_some]
        · intro hempty
          rw [hctx]
          show (if jsTruthy (req.header (s "x-personate-sub")) then
                  (req.header (s "x-personate-sub")).getD []
                else payload.sub) = payload.sub
          rw [if_neg (fun htr => htr hempty)]
      · intro hno
        exact absurd hadm hno
    · rw [if_neg hadm] at hok
      have hctx : ctx =
          { sub := payload.sub, name := payload.name, aud := payload.aud,
            scopes := payload.scope.map (jsSplit ' ') } :=
        (Except.ok.inj hok).symm
      refine ⟨fun hyes => absurd hyes hadm, fun _ => ?_⟩
      rw [hctx]

/-- C2 witness: with a non-empty x-personate-sub header and an admin-scoped
verified token, the subject is overridden to the header value. -/
theorem personate_subject_override_witness :
    ({ sub := s "bob", name := s "Alice", aud := s "club",
       scopes := some [s "*:admin", s "read:x"] } : AuthContext).sub = s "bob" :=
  ((personate_subject_override remoteOptions (constVerify adminPayload) personateReq
      (s "Bearer token") adminPayload _ rfl (by decide) rfl rfl rfl).1
    (by decide)).1 (s "bob") rfl (by decide)

/-- C4 counterexample: with the route's required scope set to the empty
string and a token that does not carry it, the request is served with the
controller's 200 rather than the claimed 403, because the source tests the
required scope for JS truthiness before enforcing it. -/
theorem empty_required_scope_counterexample :
    emptyScopeOptions.scope = some [] ∧
      ¬ optIncludes (plainPayload.scope.map (jsSplit ' '))
          ((emptyScopeOptions.scope).getD []) ∧
      (privateRouteResponse emptyScopeOptions (constVerify plainPayload) demoController
          bearerReq).status = 200 :=
  ⟨rfl, by decide, rfl⟩

/-- C4 (amended): for a verified token, the scope gate passes iff the
required scope is unset, empty, or a member of the token's scope sequence;
a set non-empty required scope missing from that sequence makes the
handler fail with the 403 Forbidden RestError and the translated response
status is 403. -/
theorem scope_authorization_amended (options : AuthOptions) (verify : Verify)
    (c : Controller) (req : Request) (a : Str) (payload : JwtPayload)
    (ha : req.header (s "authorization") = some a) (hne : a ≠ [])
    (hb : (jsSplit ' ' a).headD [] = s "Bearer")
    (hv : tryVerify options verify ((jsSplit ' ' a).get? 1) = .ok payload) :
    ((∃ ctx, createAuthHandler options verify req = .ok ctx) ↔
       (¬ jsTruthy options.scope ∨
         optIncludes (payload.scope.map (jsSplit ' ')) (options.scope.getD []))) ∧
    (∀ sc, options.scope = some sc → sc ≠ [] →
       ¬ optIncludes (payload.scope.map (jsSplit ' ')) sc →
       createAuthHandler options verify req = .error RestError.forbiddenDefault ∧
         (privateRouteResponse options verify c req).status = 403) := by
  have hrun := authHandler_run options verify req a ha hne hb
  have htb := tryBlock_run options verify ((jsSplit ' ' a).get? 1) req payload hv
  constructor
  · constructor
    · rintro ⟨ctx, hok⟩
      rw [hrun, htb] at hok
      by_cases hsc : jsTruthy options.scope ∧
          ¬ optIncludes (payload.scope.map (jsSplit ' ')) (options.scope.getD [])
      · rw [if_pos hsc] at hok
        exact Except.noConfusion hok
      · rcases not_and_or.mp hsc with hA | hB
        · exact Or.inl hA
        · exact Or.inr (not_not.mp hB)
    · intro hdisj
      rw [hrun, htb]
      have hsc : ¬(jsTruthy options.scope ∧
          ¬ optIncludes (payload.scope.map (jsSplit ' ')) (options.scope.getD [])) := by
        rcases hdisj with h1 | h2
        · exact fun hand => h1 hand.1
        · exact fun hand => hand.2 h2
      rw [if_neg hsc]
      by_cases hadm : optIncludes (payload.scope.map (jsSplit ' ')) (s "*:admin")
      · rw [if_pos hadm]; exact ⟨_, rfl⟩
      · rw [if_neg hadm]; exact ⟨_, rfl⟩
  · intro sc hsceq hscne hmiss
    have hforb : createAuthHandler options verify req = .error RestError.forbiddenDefault := by
      rw [hrun, htb]
      have hcond : jsTruthy options.scope ∧
          ¬ optIncludes (payload.scope.map (jsSplit ' ')) (options.scope.getD []) := by
        constructor
        · rw [hsceq]; exact hscne
        · rw [hsceq, Option.getD_some]; exact hmiss
      rw [if_pos hcond]
    refine ⟨hforb, ?_⟩
    unfold privateRouteResponse
    rw [hforb]
    rfl

/-- C4 witness: a non-empty required scope missing from the token's scope
sequence is answered 403. -/
theorem scope_authorization_amended_witness :
    (privateRouteResponse scopedOptions (constVerify plainPayload) demoController
        bearerReq).status = 403 :=
  ((scope_authorization_amended scopedOptions (constVerify plainPayload) demoController
      bearerReq (s "Bearer token") plainPayload rfl (by decide) rfl rfl).2
    (s "write:x") rfl (by decide) (by decide)).2

/-- C10: an insufficient-scope failure raised inside the try block is a
RestError, which the catch clause rethrows unchanged (only non-RestError
failures become the generic Unauthorized), so the request is answered with
the 403 Forbidden error and is never downgraded to 401. -/
theorem forbidden_not_downgraded (options : AuthOptions) (verify : Verify)
    (c : Controller) (req : Request) (a : Str) (payload : JwtPayload) (sc : Str)
    (ha : req.header (s "authorization") = some a) (hne : a ≠ [])
    (hb : (jsSplit ' ' a).headD [] = s "Bearer")
    (hv : tryVerify options verify ((jsSplit ' ' a).get? 1) = .ok payload)
    (hsceq : options.scope = some sc) (hscne : sc ≠ [])
    (hmiss : ¬ optIncludes (payload.scope.map (jsSplit ' ')) sc) :
    createAuthHandler options verify req = .error RestError.forbiddenDefault ∧
      RestError.forbiddenDefault.statusCode = 403 ∧
      (privateRouteResponse options verify c req).status = 403 ∧
      (privateRouteResponse options verify c req).status ≠ 401 := by
  have hforb : createAuthHandler options verify req = .error RestError.forbiddenDefault := by
    rw [authHandler_run options verify req a ha hne hb,
        tryBlock_run options verify ((jsSplit ' ' a).get? 1) req payload hv]
    have hcond : jsTruthy options.scope ∧
        ¬ optIncludes (payload.scope.map (jsSplit ' ')) (options.scope.getD []) := by
      constructor
      · rw [hsceq]; exact hscne
      · rw [hsceq, Option.getD_some]; exact hmiss
    rw [if_pos hcond]
  have hresp : (privateRouteResponse options verify c req).status = 403 := by
    unfold privateRouteResponse
    rw [hforb]
    rfl
  exact ⟨hforb, rfl, hresp, by rw [hresp]; decide⟩

/-- C10 witness: the insufficient-scope response status is not 401. -/
theorem forbidden_not_downgraded_witness :
    (privateRouteResponse scopedOptions (constVerify plainPayload) demoController
        bearerReq).status ≠ 401 :=
  (forbidden_not_downgraded scopedOptions (constVerify plainPayload) demoController
      bearerReq (s "Bearer token") plainPayload (s "write:x") rfl (by decide) rfl rfl rfl
      (by decide) (by decide)).2.2.2

/-- C9: an error propagated from controller execution is translated by
catchError: a RestError is rendered with its own declared status code and
a JSON error object holding its data and message, while any other error is
rendered as 500 with the fixed internal-error body. -/
theorem error_translator_shapes (c : Controller) (req : Request) :
    (∀ e : RestError,
       c.execute { data := req.body, auth := none, pathParams := req.pathParams,
                   rawBody := req.rawBody, headers := req.headers } = .error (.rest e) →
       publicRouteResponse c req =
         { status := e.statusCode,
           body := Json.obj [(s "error", Json.obj
             ((match e.errorData with
               | some d => [(s "data", d)]
               | none => []) ++ [(s "message", Json.str e.errorMessage)]))] }) ∧
    (∀ m : Str,
       c.execute { data := req.body, auth := none, pathParams := req.pathParams,
                   rawBody := req.rawBody, headers := req.headers } = .error (.other m) →
       publicRouteResponse c req =
         { status := 500,
           body := Json.obj [(s "error",
             Json.obj [(s "message", Json.str (s "Internal error."))])] }) := by
  constructor
  · intro e he
    unfold publicRouteResponse createBizHandler
    rw [he]
    rfl
  · intro m hm
    unfold publicRouteResponse createBizHandler
    rw [hm]
    rfl

/-- C9 witness: a typed 418 error with data is rendered with status 418 and
its error envelope; an untyped error is rendered as the fixed 500 body. -/
theorem error_translator_shapes_witness :
    publicRouteResponse failingRestController bearerReq =
      { status := 418,
        body := Json.obj [(s "error", Json.obj [(s "data", Json.str (s "teapot")),
          (s "message", Json.str (s "I am a teapot."))])] } ∧
    publicRouteResponse throwingController bearerReq =
      { status := 500,
        body := Json.obj [(s "error",
          Json.obj [(s "message", Json.str (s "Internal error."))])] } :=
  ⟨(error_translator_shapes failingRestController bearerReq).1 teapotError rfl,
   (error_translator_shapes throwingController bearerReq).2 (s "TypeError: boom") rfl⟩

lemma router_error_after_prefix (jwts defaultScope : Option Str) (e : ConfigError) :
    ∀ (pre rest : List (Str × Controller)),
      (∀ p ∈ pre,
        (∃ u, lastSegment p.1 = u ++ s ".js" ∧ u.map Char.toLower ∈ allowedMethods) ∧
        (p.2.isPublic = true ∨ jsTruthy jwts)) →
      createControllerRouter jwts defaultScope rest = .error e →
      createControllerRouter jwts defaultScope (pre ++ rest) = .error e := by
  intro pre
  induction pre with
  | nil => intro rest _ h; simpa using h
  | cons p pre ih =>
    intro rest hpre h
    obtain ⟨pf, pc⟩ := p
    obtain ⟨⟨u, hu1, hu2⟩, hauth⟩ := hpre (pf, pc) (List.mem_cons_self _ _)
    obtain ⟨r, hr⟩ := buildRoute_ok_of jwts defaultScope pf pc u hu1 hu2 hauth
    rw [List.cons_append, router_cons_ok jwts defaultScope pf pc _ r hr,
        ih rest (fun q hq => hpre q (List.mem_cons_of_mem _ hq)) h]

/-- C6: a controller file whose final path segment, minus its module-file
suffix and lowercased, is not one of get, post, patch makes router
assembly fail with the Configuration error naming that file, before any
route list is produced (the earlier files being well formed). -/
theorem invalid_method_fails_assembly (jwts defaultScope : Option Str)
    (pre post : List (Str × Controller)) (f : Str) (c : Controller) (st : Str)
    (hseg : lastSegment f = st ++ s ".js")
    (hbad : st.map Char.toLower ∉ allowedMethods)
    (hpre : ∀ p ∈ pre,
      (∃ u, lastSegment p.1 = u ++ s ".js" ∧ u.map Char.toLower ∈ allowedMethods) ∧
      (p.2.isPublic = true ∨ jsTruthy jwts)) :
    createControllerRouter jwts defaultScope (pre ++ (f, c) :: post) =
        .error (.invalidMethod f) ∧
      (ConfigError.invalidMethod f).message =
        s "The method is invalid for the file " ++ f ++ s "." := by
  refine ⟨?_, rfl⟩
  exact router_error_after_prefix jwts defaultScope _ pre ((f, c) :: post) hpre
    (router_head_error jwts defaultScope f c post _
      (buildRoute_invalid jwts defaultScope f c st hseg hbad))

/-- C6 witness: the file users/delete.js aborts assembly with the error
naming it. -/
theorem invalid_method_fails_assembly_witness :
    createControllerRouter none none [(s "users/delete.js", demoController)] =
      .error (.invalidMethod (s "users/delete.js")) :=
  (invalid_method_fails_assembly none none [] [] (s "users/delete.js") demoController
    (s "delete") rfl (by decide) (fun p hp => absurd hp (List.not_mem_nil p))).1

/-- C7: with no JWTS configuration supplied, a discovered private
controller makes router assembly fail with the Configuration error
identifying that route by its path and method (the earlier files being
well formed and public). -/
theorem private_route_requires_jwts (defaultScope : Option Str)
    (pre post : List (Str × Controller)) (f : Str) (c : Controller) (st : Str)
    (hseg : lastSegment f = st ++ s ".js")
    (hgood : st.map Char.toLower ∈ allowedMethods)
    (hpriv : c.isPublic = false)
    (hpre : ∀ p ∈ pre,
      (∃ u, lastSegment p.1 = u ++ s ".js" ∧ u.map Char.toLower ∈ allowedMethods) ∧
      p.2.isPublic = true) :
    createControllerRouter none defaultScope (pre ++ (f, c) :: post) =
        .error (.missingJwts (routePath f) (st.map Char.toLower)) ∧
      (ConfigError.missingJwts (routePath f) (st.map Char.toLower)).message =
        s "A JWTS configuration is required since the controller " ++ routePath f
          ++ s "/" ++ st.map Char.toLower ++ s " is private." := by
  refine ⟨?_, rfl⟩
  exact router_error_after_prefix none defaultScope _ pre ((f, c) :: post)
    (fun p hp => ⟨(hpre p hp).1, Or.inl (hpre p hp).2⟩)
    (router_head_error none defaultScope f c post _
      (buildRoute_missing defaultScope f c st hseg hgood hpriv))

/-- C7 witness: a private controller at users/get.js with no JWTS aborts
assembly naming the route. -/
theorem private_route_requires_jwts_witness :
    createControllerRouter none none [(s "users/get.js", privateController)] =
      .error (.missingJwts (s "/users") (s "get")) :=
  (private_route_requires_jwts none [] [] (s "users/get.js") privateController
    (s "get") rfl (by decide) rfl (fun p hp => absurd hp (List.not_mem_nil p))).1

/-- C8 counterexample: the two distinct files users/GET.js and users/get.js
resolve to the same method and path, yet assembly succeeds and registers
both routes instead of surfacing a configuration error. -/
theorem duplicate_routes_counterexample :
    (createControllerRouter none none duplicatePairFiles).map
        (List.map fun r => (r.method, r.path)) =
      Except.ok [(s "get", s "/users"), (s "get", s "/users")] := rfl

/-- C8 (amended): the resolver performs no duplicate detection: whenever
every file's method is valid and every private controller has a truthy
JWTS configuration, assembly succeeds with exactly one route per
discovered file, duplicate (method, path) pairs included, and surfaces no
error. -/
theorem assembly_registers_one_route_per_file (jwts defaultScope : Option Str)
    (files : List (Str × Controller))
    (h : ∀ p ∈ files,
      (∃ u, lastSegment p.1 = u ++ s ".js" ∧ u.map Char.toLower ∈ allowedMethods) ∧
      (p.2.isPublic = true ∨ jsTruthy jwts)) :
    ∃ routes, createControllerRouter jwts defaultScope files = .ok routes ∧
      routes.length = files.length := by
  induction files with
  | nil => exact ⟨[], rfl, rfl⟩
  | cons p rest ih =>
    obtain ⟨pf, pc⟩ := p
    obtain ⟨⟨u, hu1, hu2⟩, hauth⟩ := h (pf, pc) (List.mem_cons_self _ _)
    obtain ⟨r, hr⟩ := buildRoute_ok_of jwts defaultScope pf pc u hu1 hu2 hauth
    obtain ⟨rs, hrs, hlen⟩ := ih (fun q hq => h q (List.mem_cons_of_mem _ hq))
    refine ⟨r :: rs, ?_, by simp [hlen]⟩
    rw [router_cons_ok jwts defaultScope pf pc rest r hr, hrs]

/-- C8 witness: assembly of the duplicate-pair directory succeeds with one
route per file. -/
theorem assembly_registers_one_route_per_file_witness :
    ∃ routes, createControllerRouter none none duplicatePairFiles = .ok routes ∧
      routes.length = 2 := by
  have h : ∀ p ∈ duplicatePairFiles,
      (∃ u, lastSegment p.1 = u ++ s ".js" ∧ u.map Char.toLower ∈ allowedMethods) ∧
      (p.2.isPublic = true ∨ jsTruthy (none : Option Str)) := by
    intro p hp
    simp only [duplicatePairFiles, List.mem_cons, List.not_mem_nil, or_false] at hp
    rcases hp with hp | hp <;> subst hp
    · exact ⟨⟨s "GET", rfl, by decide⟩, Or.inl rfl⟩
    · exact ⟨⟨s "get", rfl, by decide⟩, Or.inl rfl⟩
  exact assembly_registers_one_route_per_file none none duplicatePairFiles h
